import Mathlib

/-!
Verification of the SRE-instrumented Flask demo application
(`app/config.py`, `app/main.py`) against its natural-language specification.

The Python source is shallowly embedded: module-level mutable state (the
Prometheus metric registry and the log sink) becomes an explicit `Sys` record
threaded through every operation; a Python exception escaping a function
becomes an `Except.error` carrying the stringified exception and the state at
raise time; clock reads are abstracted into an explicit elapsed-duration
parameter; the process-wide `random.random()` draw is an explicit rational
argument in `[0, 1)`.
-/

namespace DevOpsApp

/-- A Python value as it appears in a log-record field.  `obj tag` stands for
a Python object of type `tag` that `json.dumps` cannot serialize. -/
inductive PyVal where
  | str (s : String)
  | int (n : Int)
  | rat (q : ℚ)
  | bool (b : Bool)
  | none
  | obj (typeName : String)
deriving DecidableEq, Repr

/-- A JSON document, the payload shape produced by Flask's `jsonify`. -/
inductive Json where
  | str (s : String)
  | num (q : ℚ)
  | bool (b : Bool)
  | null
  | arr (xs : List Json)
  | obj (fields : List (String × Json))
deriving Repr

/-- Field lookup in a `jsonify` object body (first match). -/
def jlookup (fields : List (String × Json)) (k : String) : Option Json :=
  match fields with
  | [] => Option.none
  | kv :: rest => if kv.1 = k then some kv.2 else jlookup rest k

/-- What a Flask view function returns: a bare payload, a 1-tuple, a
`(payload, status)` pair, or a `(payload, status, headers)` triple.  These are
the tuple shapes occurring in `main.py`; the instrumentation wrapper only ever
inspects whether the value is a tuple, its length, and its second element. -/
inductive Response where
  | bare (body : Json)
  | tup1 (body : Json)
  | withStatus (body : Json) (status : Nat)
  | withStatusHeaders (body : Json) (status : Nat) (headers : List (String × String))
deriving Repr

/-- The status code the wrapper extracts from a handler's return value:
`response[1] if len(response) > 1 else 200` for tuples, `200` otherwise. -/
def statusOf : Response → Nat
  | .bare _ => 200
  | .tup1 _ => 200
  | .withStatus _ c => c
  | .withStatusHeaders _ c _ => c

/-- The payload part of a handler's return value. -/
def bodyOf : Response → Json
  | .bare b => b
  | .tup1 b => b
  | .withStatus b _ => b
  | .withStatusHeaders b _ _ => b

/-- Python's `str.upper()` on ASCII configuration strings. -/
def pyUpper (s : String) : String := ⟨s.data.map Char.toUpper⟩

/-- Python's `str.lower()` on ASCII configuration strings. -/
def pyLower (s : String) : String := ⟨s.data.map Char.toLower⟩

/-- The `Config` class of `app/config.py`: the typed settings read from the
environment.  `FAILURE_RATE` (a Python float used only in order comparisons
and an exact division by 10) is modelled as a rational. -/
structure Config where
  APP_NAME : String
  APP_VERSION : String
  ENVIRONMENT : String
  HOST : String
  PORT : Int
  DEBUG : Bool
  LOG_LEVEL : String
  LOG_FORMAT : String
  METRICS_ENABLED : Bool
  HEALTH_CHECK_ENABLED : Bool
  ENABLE_RANDOM_FAILURES : Bool
  FAILURE_RATE : ℚ
  MAX_MEMORY_MB : Int
  MAX_CPU_PERCENT : Int
deriving Repr

/-- The default configuration of `config.py` (every environment variable
unset). -/
def defaultConfig : Config where
  APP_NAME := "devops-demo-app"
  APP_VERSION := "1.0.0"
  ENVIRONMENT := "development"
  HOST := "0.0.0.0"
  PORT := 8080
  DEBUG := false
  LOG_LEVEL := "INFO"
  LOG_FORMAT := "json"
  METRICS_ENABLED := true
  HEALTH_CHECK_ENABLED := true
  ENABLE_RANDOM_FAILURES := true
  FAILURE_RATE := 1/10
  MAX_MEMORY_MB := 512
  MAX_CPU_PERCENT := 80

/-- The default configuration except that `LOG_FORMAT` is set to `"xml"`,
a value outside the documented `json|text` domain. -/
def configBadLogFormat : Config where
  APP_NAME := "devops-demo-app"
  APP_VERSION := "1.0.0"
  ENVIRONMENT := "development"
  HOST := "0.0.0.0"
  PORT := 8080
  DEBUG := false
  LOG_LEVEL := "INFO"
  LOG_FORMAT := "xml"
  METRICS_ENABLED := true
  HEALTH_CHECK_ENABLED := true
  ENABLE_RANDOM_FAILURES := true
  FAILURE_RATE := 1/10
  MAX_MEMORY_MB := 512
  MAX_CPU_PERCENT := 80

def validLogLevels : List String :=
  ["DEBUG", "INFO", "WARNING", "ERROR", "CRITICAL"]

def validEnvironments : List String :=
  ["development", "staging", "production"]

/-- `Config.validate` from `app/config.py`, line for line: checks `PORT`,
`FAILURE_RATE`, `LOG_LEVEL` (case-insensitively) and `ENVIRONMENT`
(case-insensitively), raising `ValueError` (modelled as `.error`) on the first
violation.  Note the source contains no check of `LOG_FORMAT`. -/
def Config.validate (c : Config) : Except String Unit :=
  if ¬(1 ≤ c.PORT ∧ c.PORT ≤ 65535) then
    .error ("PORT must be between 1 and 65535, got " ++ toString c.PORT)
  else if ¬((0 : ℚ) ≤ c.FAILURE_RATE ∧ c.FAILURE_RATE ≤ 1) then
    .error ("FAILURE_RATE must be between 0.0 and 1.0, got " ++ toString c.FAILURE_RATE)
  else if ¬(pyUpper c.LOG_LEVEL ∈ validLogLevels) then
    .error ("LOG_LEVEL must be one of " ++ toString validLogLevels ++ ", got " ++ c.LOG_LEVEL)
  else if ¬(pyLower c.ENVIRONMENT ∈ validEnvironments) then
    .error ("ENVIRONMENT must be one of " ++ toString validEnvironments ++ ", got " ++ c.ENVIRONMENT)
  else
    .ok ()

/-- One structured log event as handed to the sink: level, event type, and the
caller-supplied context fields. -/
structure LogEvent where
  level : String
  event : String
  fields : List (String × PyVal)
deriving DecidableEq, Repr

/-- The module-level Prometheus metric series of `main.py`.  Each series maps
a label tuple to its accumulator; a histogram accumulator is the list of
observed values (from which bucket counts, `_sum` and `_count` derive). -/
structure Metrics where
  http_requests_total : String → String → Nat → ℕ
  http_request_duration_seconds : String → String → List ℚ
  business_operations_total : String → String → ℕ

/-- The mutable module state: the metric registry plus the ordered stream of
structured log events written to stdout. -/
structure Sys where
  metrics : Metrics
  logs : List LogEvent

/-- Fresh state: all counters zero, no observations, no log output. -/
def Sys.init : Sys where
  metrics :=
    { http_requests_total := fun _ _ _ => 0
      http_request_duration_seconds := fun _ _ => []
      business_operations_total := fun _ _ => 0 }
  logs := []

/-- Append one structured event to the log sink (the effect of a
`log_structured` call at the event level). -/
def Sys.log (s : Sys) (level event : String) (fields : List (String × PyVal)) : Sys :=
  { s with logs := s.logs ++ [⟨level, event, fields⟩] }

/-- `http_requests_total.labels(method, endpoint, status_code).inc()`. -/
def Sys.incRequests (s : Sys) (method endpoint : String) (status : Nat) : Sys :=
  { s with metrics :=
    { s.metrics with http_requests_total := fun m e c =>
        if m = method ∧ e = endpoint ∧ c = status then
          s.metrics.http_requests_total m e c + 1
        else
          s.metrics.http_requests_total m e c } }

/-- `http_request_duration_seconds.labels(method, endpoint).observe(d)`. -/
def Sys.observeDuration (s : Sys) (method endpoint : String) (d : ℚ) : Sys :=
  { s with metrics :=
    { s.metrics with http_request_duration_seconds := fun m e =>
        if m = method ∧ e = endpoint then
          s.metrics.http_request_duration_seconds m e ++ [d]
        else
          s.metrics.http_request_duration_seconds m e } }

/-- `business_operations_total.labels(operation, status).inc()`. -/
def Sys.incBusiness (s : Sys) (operation status : String) : Sys :=
  { s with metrics :=
    { s.metrics with business_operations_total := fun o st =>
        if o = operation ∧ st = status then
          s.metrics.business_operations_total o st + 1
        else
          s.metrics.business_operations_total o st } }

/-! ## Structured logging (`log_structured`, `main.py` lines 83-105) -/

/-- `str(v)` for the values a log field can hold (used by the text format,
which never fails). -/
def pyStr : PyVal → String
  | .str s => s
  | .int n => toString n
  | .rat q => toString q
  | .bool b => cond b "True" "False"
  | .none => "None"
  | .obj t => "<" ++ t ++ " object>"

/-- Whether `json.dumps` can serialize this value. -/
def serializable : PyVal → Bool
  | .obj _ => false
  | _ => true

/-- A JSON string literal (escaping is irrelevant to the claims and elided). -/
def jstr (s : String) : String := "\"" ++ s ++ "\""

/-- `json.dumps` on a single field value: raises `TypeError` (modelled as
`.error`) on a non-serializable object, exactly as CPython does. -/
def dumpsVal : PyVal → Except String String
  | .str s => .ok (jstr s)
  | .int n => .ok (toString n)
  | .rat q => .ok (toString q)
  | .bool b => .ok (cond b "true" "false")
  | .none => .ok "null"
  | .obj t => .error ("Object of type " ++ t ++ " is not JSON serializable")

/-- Serialize the entries of a dict one by one; the first failure aborts. -/
def dumpsEntries : List (String × PyVal) → Except String (List String)
  | [] => .ok []
  | kv :: rest =>
    match dumpsVal kv.2, dumpsEntries rest with
    | .ok sv, .ok srest => .ok ((jstr kv.1 ++ ": " ++ sv) :: srest)
    | .error e, _ => .error e
    | .ok _, .error e => .error e

/-- `json.dumps` on the whole record. -/
def dumps (d : List (String × PyVal)) : Except String String :=
  match dumpsEntries d with
  | .ok parts => .ok ("\x7b" ++ String.intercalate ", " parts ++ "\x7d")
  | .error e => .error e

/-- Python-dict insertion: assigning to an existing key replaces its value in
place (keeping insertion order); a new key is appended. -/
def dictInsert : List (String × PyVal) → String → PyVal → List (String × PyVal)
  | [], k, v => [(k, v)]
  | kv :: rest, k, v =>
    if kv.1 = k then (k, v) :: rest else kv :: dictInsert rest k v

/-- Lookup in a dict built by `dictInsert` (first match). -/
def lookupD (d : List (String × PyVal)) (k : String) : Option PyVal :=
  match d with
  | [] => Option.none
  | kv :: rest => if kv.1 = k then some kv.2 else lookupD rest k

/-- The rightmost binding of `k` in a raw keyword-argument list — the value
that a sequence of Python dict assignments leaves in place. -/
def lookupLast : List (String × PyVal) → String → Option PyVal
  | [], _ => Option.none
  | kv :: rest, k =>
    match lookupLast rest k with
    | some v => some v
    | Option.none => if kv.1 = k then some kv.2 else Option.none

/-- The five entries the logger writes before merging the caller's fields:
`timestamp`, `level` (upper-cased), `event`, `app_name`, `environment`. -/
def fixedEntries (cfg : Config) (ts level event : String) :
    List (String × PyVal) :=
  [("timestamp", .str ts), ("level", .str (pyUpper level)), ("event", .str event),
   ("app_name", .str cfg.APP_NAME), ("environment", .str cfg.ENVIRONMENT)]

/-- The `log_entry` dict literal of `log_structured` (lines 93-100): the fixed
entries followed by `**kwargs`, merged with Python dict semantics — a later
assignment to the same key overwrites the earlier value. -/
def buildLogEntry (cfg : Config) (ts level event : String)
    (kwargs : List (String × PyVal)) : List (String × PyVal) :=
  kwargs.foldl (fun d kv => dictInsert d kv.1 kv.2) (fixedEntries cfg ts level event)

/-- `log_structured` (lines 83-105): in JSON mode, build the record and
serialize it (`json.dumps` is called with no `default`, so a `TypeError`
propagates to the caller); in text mode, format `[event] k=v ...`, which never
fails. The returned string is the line handed to `logger.log`.  `kwargs` here
is the already-bound keyword dictionary of a call that passed Python's
argument binding (see `bindLogCall`): in the running program it can never
contain a key named `level` or `event`, since those collide with the
positional parameters at the call site. -/
def log_structured (cfg : Config) (ts level event : String)
    (kwargs : List (String × PyVal)) : Except String String :=
  if cfg.LOG_FORMAT = "json" then
    dumps (buildLogEntry cfg ts level event kwargs)
  else
    .ok ("[" ++ event ++ "] " ++
      String.intercalate " " (kwargs.map (fun kv => kv.1 ++ "=" ++ pyStr kv.2)))

/-- Python's binding of a call `log_structured(level, event, **fields)`: a
caller field named `level` or `event` duplicates a positional parameter of
`def log_structured(level, event, **kwargs)`, so the interpreter raises
`TypeError` before the function body runs; any other field dict is bound into
`kwargs` unchanged. -/
def bindLogCall (fields : List (String × PyVal)) :
    Except String (List (String × PyVal)) :=
  if fields.any (fun kv => kv.1 = "level" ∨ kv.1 = "event") then
    .error "TypeError: log_structured() got multiple values for argument"
  else
    .ok fields

/-! ## Route handlers (`main.py`) -/

/-- Body returned by `/ready` on the simulated-failure branch (lines 234-242). -/
def notReadyBody (ts : ℚ) : Json :=
  .obj [("status", .str "not_ready"), ("timestamp", .num ts),
        ("checks", .obj [("cache", .str "ok"), ("database", .str "degraded"),
                         ("external_api", .str "ok")])]

/-- Body returned by `/ready` on the nominal branch (lines 244-252). -/
def readyBody (ts : ℚ) : Json :=
  .obj [("status", .str "ready"), ("timestamp", .num ts),
        ("checks", .obj [("cache", .str "ok"), ("database", .str "ok"),
                         ("external_api", .str "ok")])]

/-- `readiness_check` (lines 219-253), with the `random.random()` draw `r` and
the `time.time()` reading `ts` passed explicitly: fails with 503 when random
failures are enabled and `r < FAILURE_RATE / 10`, else returns 200. -/
def readiness_check (cfg : Config) (r ts : ℚ) (s : Sys) : Response × Sys :=
  if cfg.ENABLE_RANDOM_FAILURES = true ∧ r < cfg.FAILURE_RATE / 10 then
    (.withStatus (notReadyBody ts) 503,
     s.log "warning" "readiness_check_failed" [("reason", .str "simulated_failure")])
  else
    (.withStatus (readyBody ts) 200, s)

/-- `get_store` (lines 369-401): 404 with an error body for ids other than
1 and 2, else a 200 store-detail body and a business-counter increment. -/
def get_store (store_id : Int) (s : Sys) : Response × Sys :=
  if store_id ∉ ([1, 2] : List Int) then
    (.withStatus (.obj [("error", .str "Store not found"),
                        ("store_id", .num store_id)]) 404,
     s.log "warning" "store_not_found" [("store_id", .int store_id)])
  else
    (.withStatus (.obj [("id", .num store_id),
                        ("name", .str ("Store " ++ toString store_id)),
                        ("location", .str (if store_id = 1 then "us-east-1" else "us-west-2")),
                        ("status", .str "operational")]) 200,
     s.incBusiness "store_detail_fetch" "success")

/-- Field access on a JSON object body. -/
def jfield : Json → String → Option Json
  | .obj fields, k => jlookup fields k
  | _, _ => Option.none

def CONTENT_TYPE_LATEST : String := "text/plain; version=0.0.4; charset=utf-8"

/-- `metrics` (lines 260-268).  The route is registered with **no**
`@instrument_request` decorator, so the view body is the whole effect of a
scrape: it renders the registry (`generate_latest`, abstracted as the `render`
argument since the exposition encoder lives in the client library) and touches
neither the metrics nor the log sink. -/
def metrics_handler (render : Metrics → String) (s : Sys) : Response × Sys :=
  (.withStatusHeaders (.str (render s.metrics)) 200
     [("Content-Type", CONTENT_TYPE_LATEST)], s)

/-! ## Request instrumentation wrapper (`instrument_request`, lines 112-190) -/

/-- Per-request transient data read off the Flask `request` object. -/
structure RequestContext where
  method : String
  path : String
  remote_addr : String
  user_agent : String

/-- What one invocation of the inner view function does: return a response
normally, or raise an exception whose `str` is `e`. -/
inductive HandlerResult where
  | ok (resp : Response)
  | exc (e : String)

/-- Python's `round(x, 2)` as used for `duration_ms` (rounding mode is
irrelevant to every claim; only the field's presence matters). -/
def round2 (q : ℚ) : ℚ := (round (q * 100) : ℤ) / 100

/-- The fields of the `request_received` event (lines 125-132). -/
def requestReceivedFields (req : RequestContext) : List (String × PyVal) :=
  [("method", .str req.method), ("path", .str req.path),
   ("remote_addr", .str req.remote_addr), ("user_agent", .str req.user_agent)]

/-- The `decorated_function` produced by `instrument_request endpoint_name`
(lines 121-187).  The inner handler `f` acts on the shared state and either
returns a response or raises; the two `time.time()` reads are abstracted into
the elapsed `duration` (seconds).  Normal return: extract the status code
(`response[1]` for tuples of length > 1, else 200), bump
`http_requests_total`, observe the duration, log `request_completed`, and
return the handler's response unchanged.  Exception: log `request_failed`,
bump `http_requests_total` with status 500, and re-raise (the `.error` carries
the same exception string and the state at the raise). -/
def decorated_function (endpoint_name : String)
    (f : Sys → HandlerResult × Sys) (req : RequestContext) (duration : ℚ)
    (s : Sys) : Except (String × Sys) (Response × Sys) :=
  let s1 := s.log "info" "request_received" (requestReceivedFields req)
  match f s1 with
  | (.ok resp, s2) =>
    let status_code := statusOf resp
    let s3 := s2.incRequests req.method endpoint_name status_code
    let s4 := s3.observeDuration req.method endpoint_name duration
    let s5 := s4.log "info" "request_completed"
      [("method", .str req.method), ("path", .str req.path),
       ("status_code", .int status_code),
       ("duration_ms", .rat (round2 (duration * 1000)))]
    .ok (resp, s5)
  | (.exc e, s2) =>
    let s3 := s2.log "error" "request_failed"
      [("method", .str req.method), ("path", .str req.path),
       ("error", .str e), ("duration_ms", .rat (round2 (duration * 1000)))]
    let s4 := s3.incRequests req.method endpoint_name 500
    .error (e, s4)

/-! ## Concurrent counter increments

Modelled from the spec: the accumulator behind one `(series, label-tuple)` of
the request counter lives in the Prometheus client library, not in this
repository's source; per the spec every mutating call uses "fine-grained
synchronization scoped to the specific series/label-tuple accumulator" — the
client's `inc` takes the accumulator's lock, reads the value, writes the
incremented value, and releases.  Each of `K` threads performs one such
increment; a step either atomically acquires the free lock and reads the
current value, or writes back its read value plus one and releases. -/

inductive ThreadState where
  | idle
  | holding (v : ℕ)
  | finished
deriving DecidableEq, Repr

/-- Whether this thread currently owns the accumulator's lock. -/
def ThreadState.ownsLock : ThreadState → Bool
  | .holding _ => true
  | _ => false

/-- Shared state: the accumulator value and each thread's progress. -/
structure CounterState (K : ℕ) where
  value : ℕ
  threads : Fin K → ThreadState

/-- All `K` threads poised to increment a zeroed accumulator. -/
def initCounter (K : ℕ) : CounterState K :=
  ⟨0, fun _ => .idle⟩

/-- One scheduler step of the lock-protected increment: `acquire` takes the
free lock and reads the value; `release` writes back the incremented value
and frees the lock.  Any interleaving of the `K` threads is a sequence of
these steps. -/
inductive IncStep (K : ℕ) : CounterState K → CounterState K → Prop where
  | acquire (s : CounterState K) (i : Fin K)
      (hidle : s.threads i = .idle)
      (hfree : ∀ j, (s.threads j).ownsLock = false) :
      IncStep K s ⟨s.value, Function.update s.threads i (.holding s.value)⟩
  | release (s : CounterState K) (i : Fin K) (v : ℕ)
      (hhold : s.threads i = .holding v) :
      IncStep K s ⟨v + 1, Function.update s.threads i .finished⟩

/-- Number of threads that have completed their increment. -/
def finishedCount {K : ℕ} (s : CounterState K) : ℕ :=
  (Finset.univ.filter (fun i => s.threads i = ThreadState.finished)).card

/-- Invariant of the lock-protected increment: the accumulator equals the
number of completed increments, and a lock holder read the current value and
is the unique holder. -/
def CounterInv {K : ℕ} (s : CounterState K) : Prop :=
  s.value = finishedCount s ∧
  ∀ i v, s.threads i = ThreadState.holding v →
    v = s.value ∧ ∀ j, j ≠ i → (s.threads j).ownsLock = false

/-! ## Theorems -/

/-- C7: `GET /stores/1` returns status 200 with a body whose `id` field is 1
and whose `location` field is `"us-east-1"`; `GET /stores/3` returns status
404 with body `{"error": "Store not found", "store_id": 3}` — for any prior
state of the metric registry and log sink. -/
theorem get_store_scenario (s : Sys) :
    statusOf (get_store 1 s).1 = 200 ∧
    jfield (bodyOf (get_store 1 s).1) "id" = some (.num 1) ∧
    jfield (bodyOf (get_store 1 s).1) "location" = some (.str "us-east-1") ∧
    (get_store 3 s).1 =
      .withStatus (.obj [("error", .str "Store not found"),
                         ("store_id", .num 3)]) 404 := by
  refine ⟨rfl, rfl, rfl, rfl⟩

/-- C10: the `/metrics` view is registered without the instrumentation
decorator, so serving a scrape leaves the whole state — in particular
`http_requests_total`, `http_request_duration_seconds`, and the log stream
(hence no `request_received`/`request_completed` events) — unchanged. -/
theorem metrics_scrape_frame (render : Metrics → String) (s : Sys) :
    (metrics_handler render s).2 = s ∧
    (metrics_handler render s).2.metrics.http_requests_total =
      s.metrics.http_requests_total ∧
    (metrics_handler render s).2.metrics.http_request_duration_seconds =
      s.metrics.http_request_duration_seconds ∧
    (metrics_handler render s).2.logs = s.logs ∧
    statusOf (metrics_handler render s).1 = 200 := by
  exact ⟨rfl, rfl, rfl, rfl, rfl⟩

/-- C5 counterexample: a configuration whose `LOG_FORMAT` is `"xml"` — not
one of `json|text` — passes `Config.validate` without error, refuting the
claim that validation raises whenever any documented constraint (including
the one on `LOG_FORMAT`) is violated. -/
theorem config_validate_accepts_bad_log_format :
    Config.validate configBadLogFormat = .ok () ∧
    "xml" ∉ ["json", "text"] := by
  constructor
  · unfold Config.validate
    rw [if_neg (by decide), if_neg (by norm_num [configBadLogFormat]),
        if_neg (by decide), if_neg (by decide)]
  · decide

/-- C5 amended: `Config.validate` raises a descriptive error exactly when
`PORT` is outside 1..65535, `FAILURE_RATE` is outside [0, 1], `LOG_LEVEL` is
(case-insensitively) not one of the five levels, or `ENVIRONMENT` is
(case-insensitively) not one of the three environments; `LOG_FORMAT` is not
validated at all. -/
theorem config_validate_ok_iff (c : Config) :
    c.validate = .ok () ↔
      ((1 ≤ c.PORT ∧ c.PORT ≤ 65535) ∧
       ((0 : ℚ) ≤ c.FAILURE_RATE ∧ c.FAILURE_RATE ≤ 1) ∧
       pyUpper c.LOG_LEVEL ∈ validLogLevels ∧
       pyLower c.ENVIRONMENT ∈ validEnvironments) := by
  unfold Config.validate
  split_ifs with h1 h2 h3 h4 <;> simp_all

/-- C6: with the random draw `r` made explicit, `GET /ready` returns the 503
`not_ready` response exactly when `ENABLE_RANDOM_FAILURES` is set and
`r < FAILURE_RATE / 10` (one tenth of the configured failure rate), returns
the 200 `ready` response otherwise, and no status other than 200 or 503 is
possible. -/
theorem readiness_check_spec (cfg : Config) (r ts : ℚ) (s : Sys)
    (hr0 : 0 ≤ r) (hr1 : r < 1) :
    ((readiness_check cfg r ts s).1 = .withStatus (notReadyBody ts) 503 ↔
      (cfg.ENABLE_RANDOM_FAILURES = true ∧ r < cfg.FAILURE_RATE / 10)) ∧
    ((readiness_check cfg r ts s).1 = .withStatus (readyBody ts) 200 ↔
      ¬(cfg.ENABLE_RANDOM_FAILURES = true ∧ r < cfg.FAILURE_RATE / 10)) ∧
    (statusOf (readiness_check cfg r ts s).1 = 200 ∨
     statusOf (readiness_check cfg r ts s).1 = 503) := by
  unfold readiness_check
  split_ifs with h <;> simp_all [statusOf]

/-- C6 witness: with the default configuration (random failures on, failure
rate 1/10) and draw 1/200 < 1/100, readiness reports 503 `not_ready`. -/
theorem readiness_check_spec_witness :
    (readiness_check defaultConfig (1/200) 0 Sys.init).1 =
      .withStatus (notReadyBody 0) 503 := by
  have h := readiness_check_spec defaultConfig (1/200) 0 Sys.init
    (by norm_num) (by norm_num)
  exact h.1.mpr ⟨rfl, by norm_num [defaultConfig]⟩

/-- Inserting a binding then looking up: the inserted key now maps to the new
value; every other key is untouched. -/
theorem lookupD_dictInsert (d : List (String × PyVal)) (k : String) (v : PyVal)
    (k' : String) :
    lookupD (dictInsert d k v) k' = if k' = k then some v else lookupD d k' := by
  induction d with
  | nil =>
    rcases eq_or_ne k k' with h | h
    · subst h; simp [dictInsert, lookupD]
    · simp [dictInsert, lookupD, h, h.symm]
  | cons kv rest ih =>
    simp only [dictInsert]
    by_cases h1 : kv.1 = k
    · rw [if_pos h1]
      simp only [lookupD]
      rcases eq_or_ne k' k with h2 | h2
      · subst h2; simp
      · simp [h2, h2.symm, h1]
    · rw [if_neg h1]
      simp only [lookupD, ih]
      by_cases h3 : kv.1 = k'
      · have h4 : k' ≠ k := fun hh => h1 (h3.trans hh)
        simp [h3, h4]
      · simp [h3]

/-- Folding a keyword-argument list into a dict with Python assignment
semantics: the rightmost binding of a key wins; keys never assigned keep
their value from the initial dict. -/
theorem lookupD_foldl (kwargs : List (String × PyVal))
    (d : List (String × PyVal)) (k : String) :
    lookupD (kwargs.foldl (fun d kv => dictInsert d kv.1 kv.2) d) k =
      (match lookupLast kwargs k with
       | some v => some v
       | Option.none => lookupD d k) := by
  induction kwargs generalizing d with
  | nil => simp [lookupLast]
  | cons kv rest ih =>
    simp only [List.foldl_cons, lookupLast]
    rw [ih]
    rcases hrest : lookupLast rest k with _ | v
    · simp only [hrest]
      rw [lookupD_dictInsert]
      by_cases h : kv.1 = k
      · simp [h]
      · simp only [h, if_false]
        rw [if_neg (fun hh : k = kv.1 => h hh.symm)]
    · simp [hrest]

/-- A kwarg list has a rightmost binding for `k` exactly when `k` is among
its keys. -/
theorem lookupLast_isSome (l : List (String × PyVal)) (k : String) :
    (lookupLast l k).isSome = true ↔ k ∈ l.map Prod.fst := by
  induction l with
  | nil => simp [lookupLast]
  | cons kv rest ih =>
    simp only [lookupLast, List.map_cons, List.mem_cons]
    rcases h : lookupLast rest k with _ | v
    · have hnm : ¬ k ∈ rest.map Prod.fst := by
        intro hm
        have := ih.mpr hm
        rw [h] at this
        simp at this
      by_cases hk : kv.1 = k
      · simp [hk]
      · simp [hk, hnm]
        exact fun hh => hk hh.symm
    · have hm : k ∈ rest.map Prod.fst := by
        rw [← ih, h]; rfl
      simp [hm]

/-- `k` is a key of the five logger-written entries exactly when it is one of
the five fixed names. -/
theorem lookupD_fixedEntries_isSome (cfg : Config) (ts level event k : String) :
    (lookupD (fixedEntries cfg ts level event) k).isSome = true ↔
      k ∈ ["timestamp", "level", "event", "app_name", "environment"] := by
  simp only [fixedEntries, lookupD, List.mem_cons]
  split_ifs with h1 h2 h3 h4 h5 <;> simp_all [eq_comm]

/-- A key that no kwarg binds has no rightmost binding. -/
theorem lookupLast_eq_none (l : List (String × PyVal)) (k : String)
    (h : ∀ kv ∈ l, kv.1 ≠ k) : lookupLast l k = Option.none := by
  cases hv : lookupLast l k with
  | none => rfl
  | some v =>
    have hmem : k ∈ l.map Prod.fst := by
      rw [← lookupLast_isSome, hv]; rfl
    obtain ⟨kv, hkv, hfst⟩ := List.mem_map.mp hmem
    exact absurd hfst (h kv hkv)

/-- C3 amended: in JSON mode, for every call that Python's argument binding
accepts — caller fields named `level` or `event` are impossible, since they
raise `TypeError` at the call site before the body runs — the emitted record
contains exactly the fixed keys (`timestamp`, `level`, `event`, `app_name`,
`environment`) plus the caller-supplied fields; the record's `level` and
`event` are always the logger's own values, while on every collision the
binding can actually produce — notably `timestamp`, as well as `app_name` and
`environment` — the caller-supplied value takes precedence, because
`**kwargs` is spread after the fixed entries in the dict literal. -/
theorem log_entry_merge (cfg : Config) (ts level event : String)
    (kwargs : List (String × PyVal)) (k : String)
    (hbind : ∀ kv ∈ kwargs, kv.1 ≠ "level" ∧ kv.1 ≠ "event") :
    lookupD (buildLogEntry cfg ts level event kwargs) k =
      (match lookupLast kwargs k with
       | some v => some v
       | Option.none => lookupD (fixedEntries cfg ts level event) k) ∧
    ((lookupD (buildLogEntry cfg ts level event kwargs) k).isSome = true ↔
      (k ∈ ["timestamp", "level", "event", "app_name", "environment"] ∨
       k ∈ kwargs.map Prod.fst)) ∧
    lookupD (buildLogEntry cfg ts level event kwargs) "level" =
      some (PyVal.str (pyUpper level)) ∧
    lookupD (buildLogEntry cfg ts level event kwargs) "event" =
      some (PyVal.str event) := by
  have h1 := lookupD_foldl kwargs (fixedEntries cfg ts level event) k
  refine ⟨h1, ?_, ?_, ?_⟩
  · simp only [buildLogEntry]
    rw [h1]
    rcases hl : lookupLast kwargs k with _ | v
    · have hmem : ¬ k ∈ kwargs.map Prod.fst := by
        rw [← lookupLast_isSome, hl]; simp
      simp [lookupD_fixedEntries_isSome, hmem]
    · have hmem : k ∈ kwargs.map Prod.fst := by
        rw [← lookupLast_isSome, hl]; rfl
      simp [hmem]
  · have h2 := lookupD_foldl kwargs (fixedEntries cfg ts level event) "level"
    have hnone := lookupLast_eq_none kwargs "level" (fun kv hkv => (hbind kv hkv).1)
    simp only [buildLogEntry]
    rw [h2, hnone]
    exact rfl
  · have h3 := lookupD_foldl kwargs (fixedEntries cfg ts level event) "event"
    have hnone := lookupLast_eq_none kwargs "event" (fun kv hkv => (hbind kv hkv).2)
    simp only [buildLogEntry]
    rw [h3, hnone]
    exact rfl

/-- C3 amended witness: a call with an ordinary caller field — accepted by
the argument binding — lands in the record, and the record's `level` is the
logger's upper-cased level. -/
theorem log_entry_merge_witness :
    lookupD (buildLogEntry defaultConfig "2026-01-01T00:00:00Z" "info" "demo_event"
        [("request_id", PyVal.str "abc123")]) "request_id" =
      some (PyVal.str "abc123") ∧
    lookupD (buildLogEntry defaultConfig "2026-01-01T00:00:00Z" "info" "demo_event"
        [("request_id", PyVal.str "abc123")]) "level" =
      some (PyVal.str (pyUpper "info")) := by
  have h := log_entry_merge defaultConfig "2026-01-01T00:00:00Z" "info" "demo_event"
    [("request_id", PyVal.str "abc123")] "request_id" (by decide)
  refine ⟨?_, h.2.2.1⟩
  rw [h.1]
  rfl

/-- C3 counterexample: a caller field named `timestamp` — which Python's
argument binding accepts, unlike `level` or `event` — overrides the logger's
own timestamp in the emitted record, because the code spreads `**kwargs`
last; this refutes the claim that the logger's values win for the
`timestamp` key. -/
theorem log_entry_timestamp_caller_wins :
    bindLogCall [("timestamp", PyVal.str "1999-01-01T00:00:00Z")] =
      .ok [("timestamp", PyVal.str "1999-01-01T00:00:00Z")] ∧
    lookupD (buildLogEntry defaultConfig "2026-01-01T00:00:00Z" "info" "demo_event"
        [("timestamp", PyVal.str "1999-01-01T00:00:00Z")]) "timestamp" =
      some (PyVal.str "1999-01-01T00:00:00Z") ∧
    lookupD (fixedEntries defaultConfig "2026-01-01T00:00:00Z" "info" "demo_event")
        "timestamp" = some (PyVal.str "2026-01-01T00:00:00Z") ∧
    PyVal.str "1999-01-01T00:00:00Z" ≠ PyVal.str "2026-01-01T00:00:00Z" := by
  refine ⟨by rfl, by decide, by decide, by decide⟩

/-- A serializable field value is dumped without error. -/
theorem dumpsVal_isOk (v : PyVal) (h : serializable v = true) :
    ∃ s, dumpsVal v = .ok s := by
  cases v with
  | obj t => simp [serializable] at h
  | str s => exact ⟨_, rfl⟩
  | int n => exact ⟨_, rfl⟩
  | rat q => exact ⟨_, rfl⟩
  | bool b => exact ⟨_, rfl⟩
  | none => exact ⟨_, rfl⟩

/-- A record whose values are all serializable is dumped without error. -/
theorem dumpsEntries_isOk (d : List (String × PyVal))
    (h : ∀ kv ∈ d, serializable kv.2 = true) :
    ∃ l, dumpsEntries d = .ok l := by
  induction d with
  | nil => exact ⟨[], rfl⟩
  | cons kv rest ih =>
    obtain ⟨sv, hsv⟩ := dumpsVal_isOk kv.2 (h kv (by simp))
    obtain ⟨srest, hsrest⟩ := ih (fun x hx => h x (by simp [hx]))
    exact ⟨(jstr kv.1 ++ ": " ++ sv) :: srest, by simp [dumpsEntries, hsv, hsrest]⟩

/-- Every value in a dict after an insertion is the inserted value or one of
the dict's previous values. -/
theorem dictInsert_values (d : List (String × PyVal)) (k : String) (v : PyVal)
    (kv' : String × PyVal) (h : kv' ∈ dictInsert d k v) : kv'.2 = v ∨ kv' ∈ d := by
  induction d with
  | nil =>
    simp [dictInsert] at h
    left; rw [h]
  | cons hd tl ih =>
    simp only [dictInsert] at h
    by_cases h1 : hd.1 = k
    · rw [if_pos h1] at h
      rcases List.mem_cons.mp h with h2 | h2
      · left; rw [h2]
      · right; exact List.mem_cons_of_mem _ h2
    · rw [if_neg h1] at h
      rcases List.mem_cons.mp h with h2 | h2
      · right; exact h2 ▸ List.mem_cons_self _ _
      · rcases ih h2 with h3 | h3
        · left; exact h3
        · right; exact List.mem_cons_of_mem _ h3

/-- Merging kwargs into a dict of serializable values with serializable
values keeps every value serializable. -/
theorem foldl_dictInsert_serializable (kwargs : List (String × PyVal)) :
    ∀ d : List (String × PyVal),
      (∀ kv ∈ d, serializable kv.2 = true) →
      (∀ kv ∈ kwargs, serializable kv.2 = true) →
      ∀ kv ∈ kwargs.foldl (fun d kv => dictInsert d kv.1 kv.2) d,
        serializable kv.2 = true := by
  induction kwargs with
  | nil => intro d hd _; exact hd
  | cons x rest ih =>
    intro d hd hk
    simp only [List.foldl_cons]
    apply ih
    · intro kv hkv
      rcases dictInsert_values d x.1 x.2 kv hkv with h | h
      · rw [h]; exact hk x (by simp)
      · exact hd kv h
    · intro kv hkv
      exact hk kv (by simp [hkv])

/-- C4 amended: in either log format, `log_structured` returns normally
whenever every caller-supplied field value is JSON-serializable.  (The code
performs no string coercion of non-serializable values: see the
counterexample, where serialization raises and the error propagates.) -/
theorem log_structured_ok_of_serializable (cfg : Config)
    (ts level event : String) (kwargs : List (String × PyVal))
    (h : ∀ kv ∈ kwargs, serializable kv.2 = true) :
    ∃ line, log_structured cfg ts level event kwargs = .ok line := by
  unfold log_structured
  split_ifs with hfmt
  · have hall : ∀ kv ∈ buildLogEntry cfg ts level event kwargs,
        serializable kv.2 = true := by
      apply foldl_dictInsert_serializable
      · intro kv hkv
        simp only [fixedEntries, List.mem_cons, List.not_mem_nil, or_false] at hkv
        rcases hkv with h5 | h5 | h5 | h5 | h5 <;> subst h5 <;> rfl
      · exact h
    obtain ⟨l, hl⟩ := dumpsEntries_isOk _ hall
    simp only [buildLogEntry] at hl
    exact ⟨"\x7b" ++ String.intercalate ", " l ++ "\x7d",
      by simp [dumps, buildLogEntry, hl]⟩
  · exact ⟨_, rfl⟩

/-- C4 amended witness: a call with an ordinary string field serializes. -/
theorem log_structured_ok_of_serializable_witness :
    ∃ line, log_structured defaultConfig "2026-01-01T00:00:00Z" "info"
        "request_received" [("method", PyVal.str "GET")] = .ok line :=
  log_structured_ok_of_serializable defaultConfig "2026-01-01T00:00:00Z" "info"
    "request_received" [("method", PyVal.str "GET")] (by decide)

/-- C4 counterexample: a caller field holding a non-serializable object (a
Python `set`) makes `log_structured` raise — `json.dumps` is called with no
`default=str`, so instead of coercing the value to its string representation
the `TypeError` aborts the call. -/
theorem log_structured_raises_on_unserializable :
    log_structured defaultConfig "2026-01-01T00:00:00Z" "info" "demo_event"
        [("payload", PyVal.obj "set")] =
      .error "Object of type set is not JSON serializable" := by
  rfl

/-- C1: when the inner handler returns normally, the wrapper returns the
handler's response unchanged, extracts the status code as the tuple's second
element (200 for a bare payload or a 1-tuple), increments
`http_requests_total` at `(method, endpoint_name, status_code)` by exactly 1
leaving every other label tuple untouched, and appends the elapsed duration
to the `http_request_duration_seconds` series at `(method, endpoint_name)`. -/
theorem instrument_request_normal_return (endpoint_name : String)
    (f : Sys → HandlerResult × Sys) (req : RequestContext) (duration : ℚ)
    (s : Sys) (resp : Response) (s2 : Sys)
    (hf : f (s.log "info" "request_received" (requestReceivedFields req)) =
      (HandlerResult.ok resp, s2)) :
    ∃ s' : Sys,
      decorated_function endpoint_name f req duration s = .ok (resp, s') ∧
      s'.metrics.http_requests_total req.method endpoint_name (statusOf resp) =
        s2.metrics.http_requests_total req.method endpoint_name (statusOf resp) + 1 ∧
      (∀ m e c, ¬(m = req.method ∧ e = endpoint_name ∧ c = statusOf resp) →
        s'.metrics.http_requests_total m e c =
          s2.metrics.http_requests_total m e c) ∧
      s'.metrics.http_request_duration_seconds req.method endpoint_name =
        s2.metrics.http_request_duration_seconds req.method endpoint_name
          ++ [duration] ∧
      (∀ b, resp = Response.bare b → statusOf resp = 200) ∧
      (∀ b, resp = Response.tup1 b → statusOf resp = 200) ∧
      (∀ b c, resp = Response.withStatus b c → statusOf resp = c) ∧
      (∀ b c hs, resp = Response.withStatusHeaders b c hs → statusOf resp = c) := by
  simp only [decorated_function, hf]
  refine ⟨_, rfl, ?_, ?_, ?_, ?_, ?_, ?_, ?_⟩
  · simp [Sys.log, Sys.incRequests, Sys.observeDuration]
  · intro m e c hne
    simp only [Sys.log, Sys.incRequests, Sys.observeDuration]
    rw [if_neg hne]
  · simp [Sys.log, Sys.incRequests, Sys.observeDuration]
  · rintro b rfl; rfl
  · rintro b rfl; rfl
  · rintro b c rfl; rfl
  · rintro b c hs rfl; rfl

/-- C1 witness: a handler returning `(payload, 200)` on the home endpoint
against a fresh state yields the same response back and a counter of 1 at
`("GET", "home", 200)`. -/
theorem instrument_request_normal_return_witness :
    ∃ s' : Sys,
      decorated_function "home"
        (fun s => (HandlerResult.ok (Response.withStatus (Json.obj []) 200), s))
        ⟨"GET", "/", "203.0.113.5", "curl"⟩ 0 Sys.init =
        .ok (Response.withStatus (Json.obj []) 200, s') ∧
      s'.metrics.http_requests_total "GET" "home" 200 = 1 := by
  obtain ⟨s', hok, hinc, -, -, -, -, -, -⟩ :=
    instrument_request_normal_return "home"
      (fun s => (HandlerResult.ok (Response.withStatus (Json.obj []) 200), s))
      ⟨"GET", "/", "203.0.113.5", "curl"⟩ 0 Sys.init
      (Response.withStatus (Json.obj []) 200)
      (Sys.init.log "info" "request_received"
        (requestReceivedFields ⟨"GET", "/", "203.0.113.5", "curl"⟩)) rfl
  exact ⟨s', hok, hinc.trans rfl⟩

/-- C2: when the inner handler raises, the wrapper logs a `request_failed`
event carrying the method, path, stringified error and `duration_ms`,
increments `http_requests_total` at `(method, endpoint_name, 500)`, and
re-raises the same exception — it neither suppresses the fault nor
substitutes a response. -/
theorem instrument_request_exception (endpoint_name : String)
    (f : Sys → HandlerResult × Sys) (req : RequestContext) (duration : ℚ)
    (s : Sys) (e : String) (s2 : Sys)
    (hf : f (s.log "info" "request_received" (requestReceivedFields req)) =
      (HandlerResult.exc e, s2)) :
    ∃ s' : Sys,
      decorated_function endpoint_name f req duration s = .error (e, s') ∧
      s'.logs = s2.logs ++ [⟨"error", "request_failed",
        [("method", .str req.method), ("path", .str req.path),
         ("error", .str e), ("duration_ms", .rat (round2 (duration * 1000)))]⟩] ∧
      s'.metrics.http_requests_total req.method endpoint_name 500 =
        s2.metrics.http_requests_total req.method endpoint_name 500 + 1 := by
  simp only [decorated_function, hf]
  refine ⟨_, rfl, ?_, ?_⟩
  · simp [Sys.log, Sys.incRequests]
  · simp [Sys.log, Sys.incRequests]

/-- C2 witness: a raising handler on `/stores` produces the re-raised error
and a 500-labelled counter of 1. -/
theorem instrument_request_exception_witness :
    ∃ s' : Sys,
      decorated_function "get_stores" (fun s => (HandlerResult.exc "boom", s))
        ⟨"GET", "/stores", "203.0.113.5", "curl"⟩ 0 Sys.init =
        .error ("boom", s') ∧
      s'.metrics.http_requests_total "GET" "get_stores" 500 = 1 := by
  obtain ⟨s', herr, -, hinc⟩ :=
    instrument_request_exception "get_stores"
      (fun s => (HandlerResult.exc "boom", s))
      ⟨"GET", "/stores", "203.0.113.5", "curl"⟩ 0 Sys.init "boom"
      (Sys.init.log "info" "request_received"
        (requestReceivedFields ⟨"GET", "/stores", "203.0.113.5", "curl"⟩)) rfl
  exact ⟨s', herr, hinc.trans rfl⟩

/-- C9: on the exception path the wrapper performs no histogram observation:
the whole `http_request_duration_seconds` series map of the propagated state
equals the one the handler left behind, so the histogram's count at any label
tuple counts only invocations that returned normally. -/
theorem instrument_request_exception_no_observation (endpoint_name : String)
    (f : Sys → HandlerResult × Sys) (req : RequestContext) (duration : ℚ)
    (s : Sys) (e : String) (s2 : Sys)
    (hf : f (s.log "info" "request_received" (requestReceivedFields req)) =
      (HandlerResult.exc e, s2)) :
    ∃ s' : Sys,
      decorated_function endpoint_name f req duration s = .error (e, s') ∧
      s'.metrics.http_request_duration_seconds =
        s2.metrics.http_request_duration_seconds := by
  simp only [decorated_function, hf]
  exact ⟨_, rfl, rfl⟩

/-- C9 witness: a raising handler on `/ready` leaves the duration histogram
empty. -/
theorem instrument_request_exception_no_observation_witness :
    ∃ s' : Sys,
      decorated_function "readiness_check"
        (fun s => (HandlerResult.exc "db down", s))
        ⟨"GET", "/ready", "203.0.113.5", "curl"⟩ 1 Sys.init =
        .error ("db down", s') ∧
      s'.metrics.http_request_duration_seconds "GET" "readiness_check" = [] := by
  obtain ⟨s', herr, hh⟩ :=
    instrument_request_exception_no_observation "readiness_check"
      (fun s => (HandlerResult.exc "db down", s))
      ⟨"GET", "/ready", "203.0.113.5", "curl"⟩ 1 Sys.init "db down"
      (Sys.init.log "info" "request_received"
        (requestReceivedFields ⟨"GET", "/ready", "203.0.113.5", "curl"⟩)) rfl
  refine ⟨s', herr, ?_⟩
  rw [hh]
  exact rfl

/-- `finishedCount` on an explicit state, with the projection reduced. -/
theorem finishedCount_mk (K : ℕ) (v : ℕ) (thr : Fin K → ThreadState) :
    finishedCount (⟨v, thr⟩ : CounterState K) =
      (Finset.univ.filter (fun i => thr i = ThreadState.finished)).card := rfl

/-- The initial state satisfies the counter invariant. -/
theorem counterInv_init (K : ℕ) : CounterInv (initCounter K) := by
  constructor
  · simp [initCounter, finishedCount]
  · intro i v hv
    simp [initCounter] at hv

/-- Every scheduler step of the lock-protected increment preserves the
counter invariant. -/
theorem counterInv_step {K : ℕ} {s t : CounterState K}
    (hinv : CounterInv s) (hstep : IncStep K s t) : CounterInv t := by
  obtain ⟨hval, hhold⟩ := hinv
  cases hstep with
  | acquire i hidle hfree =>
    constructor
    · show s.value = finishedCount ⟨s.value, Function.update s.threads i (ThreadState.holding s.value)⟩
      rw [finishedCount_mk]
      have hfe : Finset.univ.filter
          (fun j => Function.update s.threads i (ThreadState.holding s.value) j =
            ThreadState.finished) =
          Finset.univ.filter (fun j => s.threads j = ThreadState.finished) := by
        apply Finset.filter_congr
        intro j _
        rcases eq_or_ne j i with hj | hj
        · subst hj
          simp [Function.update_same, hidle]
        · simp [Function.update_noteq hj]
      rw [hfe, hval, finishedCount]
    · intro i' v hv
      show _ ∧ ∀ j, j ≠ i' →
        ((⟨s.value, Function.update s.threads i (ThreadState.holding s.value)⟩ :
          CounterState K).threads j).ownsLock = false
      dsimp only at hv ⊢
      rcases eq_or_ne i' i with hi | hi
      · subst hi
        rw [Function.update_same] at hv
        injection hv with hv
        refine ⟨hv.symm, ?_⟩
        intro j hj
        rw [Function.update_noteq hj]
        exact hfree j
      · rw [Function.update_noteq hi] at hv
        have hcontra := hfree i'
        rw [hv] at hcontra
        simp [ThreadState.ownsLock] at hcontra
  | release i v hhold2 =>
    obtain ⟨hveq, huniq⟩ := hhold i v hhold2
    constructor
    · show v + 1 = finishedCount ⟨v + 1, Function.update s.threads i ThreadState.finished⟩
      rw [finishedCount_mk]
      have hsplit : Finset.univ.filter
          (fun j => Function.update s.threads i ThreadState.finished j =
            ThreadState.finished) =
          insert i (Finset.univ.filter (fun j => s.threads j = ThreadState.finished)) := by
        ext j
        simp only [Finset.mem_filter, Finset.mem_insert, Finset.mem_univ, true_and]
        rcases eq_or_ne j i with hj | hj
        · subst hj
          simp [Function.update_same]
        · simp [Function.update_noteq hj, hj]
      have hnotmem : i ∉ Finset.univ.filter
          (fun j => s.threads j = ThreadState.finished) := by
        simp [Finset.mem_filter, hhold2]
      rw [hsplit, Finset.card_insert_of_not_mem hnotmem]
      have : s.value = (Finset.univ.filter
          (fun j => s.threads j = ThreadState.finished)).card := hval
      rw [← this, hveq]
    · intro i' v' hv'
      show _ ∧ ∀ j, j ≠ i' →
        ((⟨v + 1, Function.update s.threads i ThreadState.finished⟩ :
          CounterState K).threads j).ownsLock = false
      dsimp only at hv' ⊢
      rcases eq_or_ne i' i with hi | hi
      · subst hi
        rw [Function.update_same] at hv'
        cases hv'
      · rw [Function.update_noteq hi] at hv'
        have hcontra := huniq i' hi
        rw [hv'] at hcontra
        simp [ThreadState.ownsLock] at hcontra

/-- C8: any interleaving of `K` concurrent lock-protected increments of one
`(series, label-tuple)` accumulator that runs all threads to completion
leaves the accumulator at exactly `K` — no increment is lost. -/
theorem counter_no_lost_updates (K : ℕ) (s : CounterState K)
    (hreach : Relation.ReflTransGen (IncStep K) (initCounter K) s)
    (hfin : ∀ i, s.threads i = ThreadState.finished) :
    s.value = K := by
  have hinv : CounterInv s := by
    clear hfin
    induction hreach with
    | refl => exact counterInv_init K
    | tail hsteps hstep ih => exact counterInv_step ih hstep
  have hall : Finset.univ.filter
      (fun i : Fin K => s.threads i = ThreadState.finished) = Finset.univ := by
    ext i
    simp [hfin i]
  rw [hinv.1, finishedCount, hall, Finset.card_univ, Fintype.card_fin]

/-- C8 witness: the single-thread schedule acquire-then-release, run from the
initial state, completes with the accumulator at 1. -/
theorem counter_no_lost_updates_witness :
    (CounterState.mk 1
      (Function.update (Function.update (fun _ => ThreadState.idle) (0 : Fin 1)
        (ThreadState.holding 0)) (0 : Fin 1) ThreadState.finished) :
      CounterState 1).value = 1 := by
  apply counter_no_lost_updates 1
  · have step1 : IncStep 1 (initCounter 1)
        ⟨0, Function.update (fun _ => ThreadState.idle) (0 : Fin 1)
          (ThreadState.holding 0)⟩ :=
      IncStep.acquire (initCounter 1) 0 rfl (fun _ => rfl)
    have step2 : IncStep 1
        ⟨0, Function.update (fun _ => ThreadState.idle) (0 : Fin 1)
          (ThreadState.holding 0)⟩
        ⟨1, Function.update (Function.update (fun _ => ThreadState.idle) (0 : Fin 1)
          (ThreadState.holding 0)) (0 : Fin 1) ThreadState.finished⟩ :=
      IncStep.release _ 0 0 (by
        show Function.update (fun _ => ThreadState.idle) (0 : Fin 1)
          (ThreadState.holding 0) 0 = ThreadState.holding 0
        rw [Function.update_same])
    exact Relation.ReflTransGen.head step1 (Relation.ReflTransGen.single step2)
  · intro i
    have h0 : i = 0 := Subsingleton.elim i 0
    subst h0
    show Function.update (Function.update (fun _ => ThreadState.idle) (0 : Fin 1)
      (ThreadState.holding 0)) (0 : Fin 1) ThreadState.finished 0 = ThreadState.finished
    rw [Function.update_same]

end DevOpsApp
